import Mathlib

/-!
Shallow embedding of the TradeFair marketplace backend
(`tradefair_project`): the shed allocator, the payment-gated vendor
registration callback, the Paystack webhook handler, preorder
confirmation/cancellation, preorder validation, and the follow/unfollow
flow, each translated from the corresponding Django view, serializer or
model, together with theorems settling the specification claims.
-/

namespace TradeFair

/-! ## Data model (users/models.py, vendors/models.py) -/

/-- Row of `users.CustomUser` (users/models.py). -/
structure CustomUser where
  id : Nat
  username : String
  email : String
  first_name : String
  last_name : String
  is_vendor : Bool
deriving DecidableEq, Repr

/-- Row of `users.VendorProfile` (users/models.py).  The registration
callback in users/views.py writes the formatted shed-number string into
this column, so it is modelled as a `String`. -/
structure VendorProfile where
  id : Nat
  userId : Nat
  business_name : String
  description : String
  domain : String
  shed_number : String
  payment_status : String
  payment_reference : String
deriving DecidableEq, Repr

/-- Row of `vendors.Shed` (vendors/models.py). -/
structure Shed where
  id : Nat
  vendorId : Nat
  shed_number : String
  name : String
  domain : String
  secured : Bool
deriving DecidableEq, Repr

deriving instance DecidableEq for Except

/-! ## Shed allocator (users/views.py, `generate_unique_shed_number`) -/

/-- Error raised by the allocator: the `ValueError` of
users/views.py line 27 ("No available shed numbers for domain ..."),
the spec's CapacityExceeded. -/
inductive AllocError where
  | capacityExceeded
deriving DecidableEq, Repr

/-- The `while` loop of `generate_unique_shed_number`: starting from
`number`, advance while the candidate string `pre ++ toString number`
occurs among the existing `Shed.shed_number` values or the existing
`VendorProfile.shed_number` values; after each increment, fail if the
counter passed 100.  The loop body raises as soon as the counter
exceeds 100, so at most 100 iterations happen; `fuel` is a structural
bound on that count (calls start with `fuel = 100`, making the
fuel-exhausted branch unreachable, see `allocFrom_fuel_irrelevant`). -/
def allocFrom (shedNumbers profileShedNumbers : List String) (pre : String) :
    Nat → Nat → Except AllocError String
  | _, 0 => .error .capacityExceeded
  | number, fuel + 1 =>
    if (pre ++ toString number) ∈ shedNumbers ∨
        (pre ++ toString number) ∈ profileShedNumbers then
      if number + 1 > 100 then
        .error .capacityExceeded
      else
        allocFrom shedNumbers profileShedNumbers pre (number + 1) fuel
    else
      .ok (pre ++ toString number)

/-- `generate_unique_shed_number(domain)` from users/views.py lines
20-28: the queries touch only the `shed_number` columns of `Shed` and
`VendorProfile`, which are passed in as the two lists. -/
def generate_unique_shed_number (shedNumbers profileShedNumbers : List String)
    (domain : String) : Except AllocError String :=
  allocFrom shedNumbers profileShedNumbers domain 1 100

/-- Sequential allocation trace: run the allocator `n` times against a
store that starts empty and, after each successful allocation, records
the returned shed number in both the `Shed` and the `VendorProfile`
table (as the registration callback does).  Returns the store and the
list of per-step results. -/
def allocSteps (domain : String) : Nat → List String × List (Except AllocError String)
  | 0 => ([], [])
  | n + 1 =>
    let (store, results) := allocSteps domain n
    let r := generate_unique_shed_number store store domain
    (match r with
      | .ok s => store ++ [s]
      | .error _ => store,
     results ++ [r])

/-- Shape of the full 101-round allocation trace in a domain `D`:
rounds 1..100 return the unpadded codes `D1`..`D100` and round 101
raises CapacityExceeded. -/
def FullTrace (D : String) : Prop :=
  (allocSteps D 101).2 =
    (List.range 100).map (fun i => .ok (D ++ toString (i + 1))) ++
      [.error .capacityExceeded]

instance (D : String) : Decidable (FullTrace D) := by
  unfold FullTrace; infer_instance

/-! ## Payments (payments/models.py, payments/views.py) -/

/-- Row of `payments.VendorPayment` (payments/models.py): a gateway
transaction for securing a shed.  `reference` is unique. -/
structure VendorPayment where
  id : Nat
  shedId : Nat
  amount : Int
  reference : String
  status : String
deriving DecidableEq, Repr

/-- Row of `payments.Payment` (payments/models.py): a gateway
transaction for a preorder.  `reference` is unique. -/
structure Payment where
  id : Nat
  preorderId : Nat
  amount : Int
  reference : String
  status : String
deriving DecidableEq, Repr

/-- The durable store touched by the webhook handler. -/
structure PayState where
  sheds : List Shed
  vendorPayments : List VendorPayment
  payments : List Payment
deriving DecidableEq, Repr

/-- The `data` object of an inbound Paystack webhook payload; the
handler reads it with `data.get(...)`, so both fields are optional. -/
structure WebhookData where
  reference : Option String
  status : Option String
deriving DecidableEq, Repr

/-- An inbound webhook payload as read by `request.data.get`. -/
structure WebhookPayload where
  event : Option String
  data : Option WebhookData
deriving DecidableEq, Repr

/-- An HTTP response: status code and (summarised) body. -/
structure HttpResponse where
  code : Nat
  body : String
deriving DecidableEq, Repr

/-- `vendor_payment.status = 'success'; vendor_payment.save()`:
persist the status flip on the row with the given primary key. -/
def markVendorPaymentSuccess (l : List VendorPayment) (vpId : Nat) :
    List VendorPayment :=
  l.map fun v => if v.id = vpId then { v with status := "success" } else v

/-- `vendor_payment.shed.secured = True; vendor_payment.shed.save()`:
persist the secured flag on the shed with the given primary key. -/
def secureShed (l : List Shed) (shedId : Nat) : List Shed :=
  l.map fun s => if s.id = shedId then { s with secured := true } else s

/-- `PaystackWebhook.post` (payments/views.py lines 72-86).  The
handler acts only on `charge.success` events whose `data.status` is
`success`; it looks up a `VendorPayment` by reference, marks it
successful and secures its shed, or answers 404; any other
event/status combination answers 400 "Invalid event or status".  When
`event` is `charge.success` but the payload carries no `data` object,
`data.get('status')` is an attribute access on `None` and the view
raises (`Except.error`). -/
def paystackWebhookPost (st : PayState) (p : WebhookPayload) :
    Except String (HttpResponse × PayState) :=
  if p.event = some "charge.success" then
    match p.data with
    | none => .error "AttributeError: NoneType has no attribute get"
    | some d =>
      if d.status = some "success" then
        match st.vendorPayments.find? (fun vp => some vp.reference == d.reference) with
        | some vendor_payment =>
          .ok ({ code := 200, body := "Payment verified" },
            { st with
              vendorPayments := markVendorPaymentSuccess st.vendorPayments vendor_payment.id,
              sheds := secureShed st.sheds vendor_payment.shedId })
        | none => .ok ({ code := 404, body := "Payment not found" }, st)
      else
        .ok ({ code := 400, body := "Invalid event or status" }, st)
  else
    .ok ({ code := 400, body := "Invalid event or status" }, st)

/-- The payload `{event: charge.success, data: {reference: R, status:
success}}`. -/
def successPayload (R : String) : WebhookPayload :=
  { event := some "charge.success",
    data := some { reference := some R, status := some "success" } }

/-! ## Payment-gated vendor registration (users/views.py) -/

/-- The staged registration payload held in Redis (users/views.py
lines 159-174): the JSON-encoded vendor data keyed by the payment
reference. -/
structure VendorData where
  username : String
  email : String
  first_name : String
  last_name : String
  password : String
  business_name : String
  description : String
  domain : String
deriving DecidableEq, Repr

/-- The state touched by `paystack_payment_callback`: the Redis cache
of staged registrations plus the durable user, vendor-profile and shed
tables, with fresh-primary-key counters for the three tables. -/
structure RegState where
  cache : List (String × VendorData)
  users : List CustomUser
  vendorProfiles : List VendorProfile
  sheds : List Shed
  nextUserId : Nat
  nextProfileId : Nat
  nextShedId : Nat
deriving DecidableEq, Repr

/-- The gateway's answer to `transaction.verify(reference)`:
`verification['status']` and `verification['data']['status']`.  The
gateway is external, so the answer is an input of the callback. -/
structure Verification where
  status : Bool
  dataStatus : String
deriving DecidableEq, Repr

/-- `redis_client.delete(reference)`: drop the cache entry. -/
def deleteKey (cache : List (String × VendorData)) (reference : String) :
    List (String × VendorData) :=
  cache.filter (fun kv => kv.1 != reference)

/-- The `CustomUser` row that `paystack_payment_callback` creates from
the staged data (users/views.py lines 228-236). -/
def stagedUser (d : VendorData) (newId : Nat) : CustomUser :=
  { id := newId, username := d.username, email := d.email,
    first_name := d.first_name, last_name := d.last_name, is_vendor := true }

/-- `paystack_payment_callback` (users/views.py lines 208-285).  On a
verified success it reads the staged data back from the cache, creates
the `CustomUser`, then allocates the shed number, then creates the
`VendorProfile` and the `Shed` and deletes the cache entry.  The three
creations are sequential, not transactional: if the allocator raises,
the `except` clause (line 283) deletes the cache entry and answers
500, but the already-saved user row stays. -/
def paystack_payment_callback (st : RegState) (reference : Option String)
    (verification : Verification) : HttpResponse × RegState :=
  match reference with
  | none => ({ code := 400, body := "Missing payment reference" }, st)
  | some reference =>
    if verification.status = true ∧ verification.dataStatus = "success" then
      match st.cache.lookup reference with
      | none =>
        ({ code := 400,
           body := "Registration data expired or not found. Please try again." }, st)
      | some vendor_data =>
        let user : CustomUser := stagedUser vendor_data st.nextUserId
        let stUser : RegState :=
          { st with users := st.users ++ [user], nextUserId := st.nextUserId + 1 }
        match generate_unique_shed_number (stUser.sheds.map (·.shed_number))
            (stUser.vendorProfiles.map (·.shed_number)) vendor_data.domain with
        | .error _ =>
          ({ code := 500, body := "Payment verification error" },
           { stUser with cache := deleteKey stUser.cache reference })
        | .ok shed_number =>
          let vendor_profile : VendorProfile :=
            { id := stUser.nextProfileId, userId := user.id,
              business_name := vendor_data.business_name,
              description := vendor_data.description,
              domain := vendor_data.domain, shed_number := shed_number,
              payment_status := "COMPLETED", payment_reference := reference }
          let shed : Shed :=
            { id := stUser.nextShedId, vendorId := vendor_profile.id,
              shed_number := shed_number,
              name := vendor_data.business_name ++ " Stall",
              domain := vendor_data.domain, secured := true }
          ({ code := 200, body := "Successfully registered" },
           { stUser with
             vendorProfiles := stUser.vendorProfiles ++ [vendor_profile],
             sheds := stUser.sheds ++ [shed],
             nextProfileId := stUser.nextProfileId + 1,
             nextShedId := stUser.nextShedId + 1,
             cache := deleteKey stUser.cache reference })
    else
      ({ code := 400, body := "Payment verification failed." },
       { st with cache := deleteKey st.cache reference })

/-! ## Orders (orders/models.py, orders/serializers.py, orders/views.py) -/

/-- Row of `products.Product` (products/models.py); `quantity` is the
available stock. -/
structure Product where
  id : Nat
  shedId : Nat
  vendorUserId : Nat
  name : String
  price : Int
  quantity : Nat
deriving DecidableEq, Repr

/-- Row of `orders.Preorder` (orders/models.py): the `customer` column
is used as a customer profile throughout the views and the `vendor`
column is a user. -/
structure Preorder where
  id : Nat
  customerProfileId : Nat
  vendorUserId : Nat
  productId : Nat
  quantity : Nat
  status : String
deriving DecidableEq, Repr

/-- The authenticated `request.user`: its id and its optional
one-to-one `vendor_profile` / `customer_profile` (the targets of the
`hasattr` checks). -/
structure Requester where
  userId : Nat
  vendorProfileId : Option Nat
  customerProfileId : Option Nat
deriving DecidableEq, Repr

/-- The durable store touched by the preorder endpoints. -/
structure OrderState where
  preorders : List Preorder
  products : List Product
  sheds : List Shed
  vendorProfiles : List VendorProfile
deriving DecidableEq, Repr

/-- Resolve `preorder.product`. -/
def preorderProduct (st : OrderState) (p : Preorder) : Option Product :=
  st.products.find? (fun pr => pr.id == p.productId)

/-- Resolve `preorder.product.shed.vendor` (the `VendorProfile` pk),
the join used by `get_queryset`'s vendor branch. -/
def preorderShedVendorId (st : OrderState) (p : Preorder) : Option Nat :=
  match preorderProduct st p with
  | some pr => (st.sheds.find? (fun s => s.id == pr.shedId)).map (·.vendorId)
  | none => none

/-- Resolve `preorder.product.shed.vendor.user` (the user pk), the
join used by `IsPreorderOwnerOrVendor`. -/
def preorderShedVendorUserId (st : OrderState) (p : Preorder) : Option Nat :=
  match preorderShedVendorId st p with
  | some vendorId =>
    (st.vendorProfiles.find? (fun vp => vp.id == vendorId)).map (·.userId)
  | none => none

/-- `PreorderViewSet.get_queryset` (orders/views.py lines 96-111):
vendors see preorders for their products, customers their own
preorders, other users none. -/
def preorder_get_queryset (st : OrderState) (u : Requester) : List Preorder :=
  match u.vendorProfileId with
  | some vp => st.preorders.filter (fun p => preorderShedVendorId st p == some vp)
  | none =>
    match u.customerProfileId with
    | some c => st.preorders.filter (fun p => p.customerProfileId == c)
    | none => []

/-- DRF's `get_object`: look the pk up inside the role-filtered
queryset; a miss raises Http404. -/
def preorder_get_object (st : OrderState) (u : Requester) (pk : Nat) :
    Option Preorder :=
  (preorder_get_queryset st u).find? (fun p => p.id == pk)

/-- `IsPreorderOwnerOrVendor.has_object_permission` (orders/views.py
lines 45-62). -/
def isPreorderOwnerOrVendor (st : OrderState) (u : Requester) (obj : Preorder) :
    Bool :=
  (u.vendorProfileId.isSome && preorderShedVendorUserId st obj == some u.userId) ||
    (u.customerProfileId.isSome && some obj.customerProfileId == u.customerProfileId)

/-- `preorder.status = s; preorder.save()`: persist the new status on
the row with the given primary key. -/
def setPreorderStatus (l : List Preorder) (pk : Nat) (s : String) : List Preorder :=
  l.map fun p => if p.id = pk then { p with status := s } else p

/-- `PreorderViewSet.confirm` (orders/views.py lines 137-157),
including the framework steps that run before the body: `get_object`
resolves the pk inside the role-filtered queryset (404 on a miss) and
checks `IsPreorderOwnerOrVendor` (403 on failure); the body then
answers 403 unless `preorder.vendor == request.user`, and otherwise
overwrites the status with 'confirmed' unconditionally. -/
def confirmAction (st : OrderState) (u : Requester) (pk : Nat) :
    HttpResponse × OrderState :=
  match preorder_get_object st u pk with
  | none => ({ code := 404, body := "Not found" }, st)
  | some preorder =>
    if isPreorderOwnerOrVendor st u preorder = false then
      ({ code := 403, body := "Permission denied" }, st)
    else if preorder.vendorUserId ≠ u.userId then
      ({ code := 403, body := "Not authorized to confirm this preorder" }, st)
    else
      ({ code := 200, body := "confirmed" },
       { st with preorders := setPreorderStatus st.preorders preorder.id "confirmed" })

/-- `PreorderViewSet.cancel` (orders/views.py lines 166-186), with the
same framework steps.  The guard is `preorder.vendor != user and
preorder.customer != user.customer_profile`: when the first conjunct
holds, Python evaluates `user.customer_profile`, which raises for a
user without a customer profile (`Except.error`); otherwise the body
overwrites the status with 'cancelled' unconditionally. -/
def cancelAction (st : OrderState) (u : Requester) (pk : Nat) :
    Except String (HttpResponse × OrderState) :=
  match preorder_get_object st u pk with
  | none => .ok ({ code := 404, body := "Not found" }, st)
  | some preorder =>
    if isPreorderOwnerOrVendor st u preorder = false then
      .ok ({ code := 403, body := "Permission denied" }, st)
    else if preorder.vendorUserId ≠ u.userId then
      match u.customerProfileId with
      | none => .error "RelatedObjectDoesNotExist: user has no customer_profile"
      | some c =>
        if preorder.customerProfileId ≠ c then
          .ok ({ code := 403, body := "Not authorized to cancel this preorder" }, st)
        else
          .ok ({ code := 200, body := "cancelled" },
            { st with preorders := setPreorderStatus st.preorders preorder.id "cancelled" })
    else
      .ok ({ code := 200, body := "cancelled" },
        { st with preorders := setPreorderStatus st.preorders preorder.id "cancelled" })

/-- `PreorderSerializer.validate` (orders/serializers.py lines 65-92):
reject a non-positive quantity, then reject a quantity exceeding
`product.quantity`. -/
def preorderSerializerValidate (product : Product) (quantity : Nat) :
    Except String Unit :=
  if quantity ≤ 0 then
    .error "Quantity must be greater than zero."
  else if quantity > product.quantity then
    .error "Requested quantity exceeds available stock."
  else
    .ok ()

/-- Creating a preorder: serializer validation followed by
`perform_create` (orders/views.py lines 121-128), which saves with the
requesting customer; the `status` column takes the model default
`'pending'` (orders/models.py lines 55-60). -/
def createPreorder (product : Product) (customerProfileId vendorUserId newId : Nat)
    (quantity : Nat) : Except String Preorder :=
  match preorderSerializerValidate product quantity with
  | .error e => .error e
  | .ok _ =>
    .ok { id := newId, customerProfileId := customerProfileId,
          vendorUserId := vendorUserId, productId := product.id,
          quantity := quantity, status := "pending" }

/-! ## Followers (followers/models.py, followers/serializers.py, followers/views.py) -/

/-- Row of `followers.Follow` (followers/models.py): a customer
following a vendor profile, with `unique_together ('customer',
'vendor')`. -/
structure Follow where
  id : Nat
  customerProfileId : Nat
  vendorProfileId : Nat
deriving DecidableEq, Repr

/-- Errors surfaced by the follow endpoints: `PermissionDenied` from
`perform_create`/`unfollow`, serializer validation failure, and the
storage layer's rejection of a duplicate `(customer, vendor)` key. -/
inductive FollowError where
  | permissionDenied
  | validationError
  | conflict
deriving DecidableEq, Repr

/-- The durable store touched by the follow endpoints. -/
structure FollowState where
  follows : List Follow
  vendorProfiles : List VendorProfile
  users : List CustomUser
deriving DecidableEq, Repr

/-- `FollowSerializer`'s vendor field (followers/serializers.py lines
13-21): the `PrimaryKeyRelatedField` resolves the pk against
`VendorProfile.objects.all()` and `validate_vendor` requires
`value.user.is_vendor`. -/
def followValidateVendor (st : FollowState) (vendorId : Nat) :
    Except FollowError VendorProfile :=
  match st.vendorProfiles.find? (fun vp => vp.id == vendorId) with
  | none => .error .validationError
  | some vp =>
    match st.users.find? (fun u => u.id == vp.userId) with
    | none => .error .validationError
    | some u => if u.is_vendor then .ok vp else .error .validationError

/-- A `Follow` row for the pair, as saved by the serializer. -/
def mkFollow (cid vid fid : Nat) : Follow :=
  { id := fid, customerProfileId := cid, vendorProfileId := vid }

/-- Creating a follow: `FollowViewSet.perform_create` (followers/views.py
lines 56-62) rejects non-customers with `PermissionDenied`, the
serializer validates the vendor, and the save is subject to the
`unique_together ('customer', 'vendor')` constraint of
followers/models.py line 39, which rejects a duplicate pair. -/
def followCreate (st : FollowState) (u : Requester) (vendorId newId : Nat) :
    Except FollowError (Follow × FollowState) :=
  match u.customerProfileId with
  | none => .error .permissionDenied
  | some cid =>
    match followValidateVendor st vendorId with
    | .error e => .error e
    | .ok _ =>
      if st.follows.any
          (fun f => f.customerProfileId == cid && f.vendorProfileId == vendorId) then
        .error .conflict
      else
        let follow : Follow :=
          { id := newId, customerProfileId := cid, vendorProfileId := vendorId }
        .ok (follow, { st with follows := st.follows ++ [follow] })

/-- `FollowViewSet.unfollow` (followers/views.py lines 64-86): delete
every follow of the requesting customer towards `vendor_id` and answer
200 when something was deleted, 400 otherwise. -/
def unfollowAction (st : FollowState) (u : Requester) (vendorId : Option Nat) :
    Except FollowError (HttpResponse × FollowState) :=
  match vendorId with
  | none => .ok ({ code := 400, body := "vendor_id is required." }, st)
  | some vid =>
    match u.customerProfileId with
    | none => .error .permissionDenied
    | some cid =>
      let remaining := st.follows.filter
        (fun f => !(f.customerProfileId == cid && f.vendorProfileId == vid))
      let deleted := st.follows.length - remaining.length
      if deleted ≠ 0 then
        .ok ({ code := 200, body := "Vendor unfollowed successfully." },
          { st with follows := remaining })
      else
        .ok ({ code := 400, body := "You are not following this vendor." }, st)

/-! ## Concrete sample rows and states (used by witnesses and counterexamples) -/

/-- A secured shed of vendor profile 1. -/
def shedOne : Shed :=
  { id := 1, vendorId := 1, shed_number := "CB1", name := "Shop Stall",
    domain := "CB", secured := false }

/-- A pending vendor payment for `shedOne` with reference "r". -/
def vendorPaymentOne : VendorPayment :=
  { id := 1, shedId := 1, amount := 30000, reference := "r", status := "pending" }

/-- A pending preorder payment with reference "preorder_ref_123". -/
def paymentOne : Payment :=
  { id := 1, preorderId := 1, amount := 40, reference := "preorder_ref_123",
    status := "pending" }

/-- Webhook state with one pending vendor payment. -/
def payStateVendor : PayState :=
  { sheds := [shedOne], vendorPayments := [vendorPaymentOne], payments := [] }

/-- Webhook state with one pending preorder payment and no vendor
payment (the situation of the repository's own webhook test
`test_paystack_webhook_success_preorder_payment`). -/
def payStatePreorder : PayState :=
  { sheds := [shedOne], vendorPayments := [], payments := [paymentOne] }

/-- A staged vendor registration for domain CB. -/
def vendorDataCB : VendorData :=
  { username := "vendor1", email := "vendor@example.com", first_name := "Jane",
    last_name := "Smith", password := "hash", business_name := "Vendor Shop",
    description := "Quality clothing", domain := "CB" }

/-- Registration state with one staged entry and empty tables. -/
def regStateSmall : RegState :=
  { cache := [("SHED-PENDING-x", vendorDataCB)], users := [],
    vendorProfiles := [], sheds := [], nextUserId := 1, nextProfileId := 1,
    nextShedId := 1 }

/-- Registration state whose CB domain is full: sheds CB1..CB100 all
exist, and one staged CB registration is waiting in the cache. -/
def regStateFullCB : RegState :=
  { cache := [("SHED-PENDING-x", vendorDataCB)], users := [],
    vendorProfiles := [],
    sheds := (List.range 100).map (fun i =>
      { id := i + 1, vendorId := i + 1, shed_number := "CB" ++ toString (i + 1),
        name := "S", domain := "CB", secured := true }),
    nextUserId := 1, nextProfileId := 101, nextShedId := 101 }

/-- A successful gateway verification. -/
def verifiedOk : Verification := { status := true, dataStatus := "success" }

/-- Vendor profile of user 1. -/
def vendorProfileA : VendorProfile :=
  { id := 1, userId := 1, business_name := "A Boutique", description := "",
    domain := "CB", shed_number := "CB1", payment_status := "COMPLETED",
    payment_reference := "rA" }

/-- Vendor profile of user 2 (a different vendor). -/
def vendorProfileB : VendorProfile :=
  { id := 2, userId := 2, business_name := "B Boutique", description := "",
    domain := "EC", shed_number := "EC1", payment_status := "COMPLETED",
    payment_reference := "rB" }

/-- The shed of vendor profile 1. -/
def orderShedA : Shed :=
  { id := 1, vendorId := 1, shed_number := "CB1", name := "A Stall",
    domain := "CB", secured := true }

/-- A product of vendor user 1 in shed 1 with 50 in stock. -/
def productA : Product :=
  { id := 1, shedId := 1, vendorUserId := 1, name := "T-Shirt", price := 20,
    quantity := 50 }

/-- A pending preorder of customer profile 1 for `productA`. -/
def preorderA : Preorder :=
  { id := 1, customerProfileId := 1, vendorUserId := 1, productId := 1,
    quantity := 2, status := "pending" }

/-- A cancelled preorder for `productA`. -/
def preorderCancelled : Preorder :=
  { id := 2, customerProfileId := 1, vendorUserId := 1, productId := 1,
    quantity := 1, status := "cancelled" }

/-- A confirmed preorder for `productA`. -/
def preorderConfirmed : Preorder :=
  { id := 3, customerProfileId := 1, vendorUserId := 1, productId := 1,
    quantity := 1, status := "confirmed" }

/-- Order store with one pending preorder against vendor 1's product. -/
def orderStateA : OrderState :=
  { preorders := [preorderA], products := [productA], sheds := [orderShedA],
    vendorProfiles := [vendorProfileA, vendorProfileB] }

/-- Order store with a cancelled and a confirmed preorder. -/
def orderStateB : OrderState :=
  { preorders := [preorderCancelled, preorderConfirmed], products := [productA],
    sheds := [orderShedA], vendorProfiles := [vendorProfileA, vendorProfileB] }

/-- Vendor user 1 (owner of `productA`). -/
def vendorUserA : Requester :=
  { userId := 1, vendorProfileId := some 1, customerProfileId := none }

/-- Vendor user 2 (a different vendor). -/
def vendorUserB : Requester :=
  { userId := 2, vendorProfileId := some 2, customerProfileId := none }

/-- Customer user 3 with customer profile 1. -/
def customerUserA : Requester :=
  { userId := 3, vendorProfileId := none, customerProfileId := some 1 }

/-- Follow store with vendor profile 1 present and no follows yet. -/
def followStateA : FollowState :=
  { follows := [],
    vendorProfiles := [vendorProfileA],
    users := [{ id := 1, username := "vendorA", email := "a@example.com",
                first_name := "A", last_name := "V", is_vendor := true }] }

end TradeFair

namespace TradeFair

/-! ## Theorems: general lemmas about the allocator trace -/

/-- Any fuel of at least `101 - number` gives the same result when
`number ≤ 100`, so the fuel bound of 100 used by
`generate_unique_shed_number` is inessential: the loop terminates
through its own guards. -/
theorem allocFrom_fuel_irrelevant (sheds profiles : List String) (pre : String) :
    ∀ fuel fuel' number, number ≤ 100 →
      101 - number ≤ fuel → 101 - number ≤ fuel' →
      allocFrom sheds profiles pre number fuel =
        allocFrom sheds profiles pre number fuel' := by
  intro fuel
  induction fuel with
  | zero =>
    intro fuel' number hn h _
    omega
  | succ n ih =>
    intro fuel' number hn h h'
    match fuel', number with
    | 0, number => omega
    | f' + 1, number =>
      simp only [allocFrom]
      by_cases hmem : (pre ++ toString number) ∈ sheds ∨
          (pre ++ toString number) ∈ profiles
      · simp only [hmem, if_true]
        by_cases hcap : number + 1 > 100
        · simp [hcap]
        · simp only [hcap, if_false]
          exact ih f' (number + 1) (by omega) (by omega) (by omega)
      · simp [hmem]

/-- Each allocation round appends exactly one result, so the result
trace of `allocSteps` has length `n` after `n` rounds. -/
theorem allocSteps_results_length (domain : String) :
    ∀ n, ((allocSteps domain n).2).length = n := by
  intro n
  induction n with
  | zero => rfl
  | succ n ih => simp [allocSteps, ih]

/-- One more allocation round only extends the result trace. -/
theorem allocSteps_results_step_extends (domain : String) (n : Nat) :
    (allocSteps domain n).2 <+: (allocSteps domain (n + 1)).2 := by
  simp only [allocSteps]
  exact List.prefix_append _ _

/-- The result trace after `m` rounds is a prefix of the trace after
`n ≥ m` rounds. -/
theorem allocSteps_results_mono (domain : String) :
    ∀ m n, m ≤ n → (allocSteps domain m).2 <+: (allocSteps domain n).2 := by
  intro m n h
  induction n with
  | zero =>
    have : m = 0 := by omega
    simp [this]
  | succ n ih =>
    rcases Nat.lt_or_ge m (n + 1) with h' | h'
    · exact (ih (by omega)).trans (allocSteps_results_step_extends domain n)
    · have : m = n + 1 := by omega
      simp [this]

set_option maxRecDepth 100000 in
set_option maxHeartbeats 12000000 in
theorem fullTrace_CB : FullTrace "CB" := by decide

set_option maxRecDepth 100000 in
set_option maxHeartbeats 12000000 in
theorem fullTrace_EC : FullTrace "EC" := by decide

set_option maxRecDepth 100000 in
set_option maxHeartbeats 12000000 in
theorem fullTrace_FB : FullTrace "FB" := by decide

set_option maxRecDepth 100000 in
set_option maxHeartbeats 12000000 in
theorem fullTrace_JA : FullTrace "JA" := by decide

/-- Evaluation of the full 101-round allocation trace in each of the
four domains. -/
theorem allocSteps_trace_eval :
    ∀ D ∈ (["CB", "EC", "FB", "JA"] : List String),
      (allocSteps D 101).2 =
        (List.range 100).map (fun i => .ok (D ++ toString (i + 1))) ++
          [.error .capacityExceeded] := by
  intro D hD
  simp only [List.mem_cons, List.mem_singleton, List.not_mem_nil, or_false] at hD
  rcases hD with rfl | rfl | rfl | rfl
  · exact fullTrace_CB
  · exact fullTrace_EC
  · exact fullTrace_FB
  · exact fullTrace_JA

end TradeFair

namespace TradeFair

/-! ## Theorems: general lemmas about the webhook handler -/

/-- Marking a vendor payment successful does not change any
reference, so reference lookup commutes with it. -/
theorem find?_ref_markVendorPaymentSuccess (l : List VendorPayment) (i : Nat)
    (R : String) :
    (markVendorPaymentSuccess l i).find? (fun v => v.reference == R) =
      (l.find? (fun v => v.reference == R)).map
        (fun v => if v.id = i then { v with status := "success" } else v) := by
  have hp : ((fun v : VendorPayment => v.reference == R) ∘
      (fun v : VendorPayment =>
        if v.id = i then { v with status := "success" } else v)) =
      (fun v : VendorPayment => v.reference == R) := by
    funext v
    by_cases h : v.id = i <;> simp [h]
  simp only [markVendorPaymentSuccess, List.find?_map, hp]

/-- Marking the same vendor payment successful twice equals marking it
once. -/
theorem markVendorPaymentSuccess_idem (l : List VendorPayment) (i : Nat) :
    markVendorPaymentSuccess (markVendorPaymentSuccess l i) i =
      markVendorPaymentSuccess l i := by
  simp only [markVendorPaymentSuccess, List.map_map]
  have h : ((fun v : VendorPayment =>
        if v.id = i then { v with status := "success" } else v) ∘
      (fun v : VendorPayment =>
        if v.id = i then { v with status := "success" } else v)) =
      (fun v : VendorPayment =>
        if v.id = i then { v with status := "success" } else v) := by
    funext v
    by_cases h : v.id = i <;> simp [h]
  rw [h]

/-- Securing the same shed twice equals securing it once. -/
theorem secureShed_idem (l : List Shed) (i : Nat) :
    secureShed (secureShed l i) i = secureShed l i := by
  simp only [secureShed, List.map_map]
  have h : ((fun s : Shed => if s.id = i then { s with secured := true } else s) ∘
      (fun s : Shed => if s.id = i then { s with secured := true } else s)) =
      (fun s : Shed => if s.id = i then { s with secured := true } else s) := by
    funext s
    by_cases h : s.id = i <;> simp [h]
  rw [h]

/-- After `secureShed l i`, every shed with id `i` is secured. -/
theorem secured_of_mem_secureShed (l : List Shed) (i : Nat) :
    ∀ s ∈ secureShed l i, s.id = i → s.secured = true := by
  intro s hs hid
  simp only [secureShed, List.mem_map] at hs
  obtain ⟨t, _, rfl⟩ := hs
  by_cases h : t.id = i
  · simp [h]
  · exfalso
    simp [h] at hid

end TradeFair

open TradeFair in
/-- C1: corrected.  For every domain `D ∈ {CB, EC, FB, JA}`, allocating
`N ≤ 100` sheds sequentially yields the shed numbers `D1 .. DN` — the
domain prefix followed by the UNPADDED decimal sequence number, not the
zero-padded `D001..D0NN` stated by the spec — with no gaps or repeats,
and the 101st allocation in the same domain fails with
CapacityExceeded (the allocator's `ValueError`). -/
theorem shed_allocation_unpadded_sequence :
    ∀ D ∈ (["CB", "EC", "FB", "JA"] : List String), ∀ N : Nat, N ≤ 100 →
      (allocSteps D N).2 =
        (List.range N).map (fun i => .ok (D ++ toString (i + 1))) ∧
      (allocSteps D 101).2 =
        (List.range 100).map (fun i => .ok (D ++ toString (i + 1))) ++
          [.error .capacityExceeded] := by
  intro D hD N hN
  have hfull := allocSteps_trace_eval D hD
  refine ⟨?_, hfull⟩
  have hpre : (allocSteps D N).2 <+: (allocSteps D 101).2 :=
    allocSteps_results_mono D N 101 (by omega)
  have hlen : ((allocSteps D N).2).length = N := allocSteps_results_length D N
  have htake : (allocSteps D N).2 = ((allocSteps D 101).2).take N := by
    have h := List.prefix_iff_eq_take.mp hpre
    rwa [hlen] at h
  rw [htake, hfull, List.take_append_of_le_length (by simp; omega),
    ← List.map_take, List.take_range, Nat.min_eq_left hN]

open TradeFair in
/-- C1 counterexample: the very first allocation in domain CB returns
the unpadded code "CB1", not the zero-padded "CB001" required by the
claim. -/
theorem shed_allocation_padding_counterexample :
    (allocSteps "CB" 1).2 = [.ok "CB1"] ∧ "CB1" ≠ "CB001" := by
  constructor
  · rfl
  · decide

open TradeFair in
/-- C1 witness: instantiating the amended statement at domain CB and
N = 3 gives the concrete trace CB1, CB2, CB3. -/
theorem shed_allocation_unpadded_sequence_witness :
    ("CB" ∈ (["CB", "EC", "FB", "JA"] : List String)) ∧ 3 ≤ 100 ∧
      (allocSteps "CB" 3).2 =
        (List.range 3).map (fun i => .ok ("CB" ++ toString (i + 1))) :=
  ⟨by decide, by decide,
    (shed_allocation_unpadded_sequence "CB" (by decide) 3 (by decide)).1⟩

open TradeFair in
/-- C2: the webhook handler has no `Payment` fallback.  With a pending
preorder `Payment` carrying reference "preorder_ref_123" and no
`VendorPayment` with that reference, a `charge.success`/`success`
payload for that reference is answered 404 "Payment not found" and the
store is left unchanged — the `Payment` stays pending instead of being
marked completed as the claim (and the repository's own test
`test_paystack_webhook_success_preorder_payment`) requires. -/
theorem webhook_no_payment_fallback :
    paystackWebhookPost payStatePreorder (successPayload "preorder_ref_123") =
      .ok ({ code := 404, body := "Payment not found" }, payStatePreorder) ∧
    paymentOne ∈ payStatePreorder.payments ∧ paymentOne.status = "pending" := by
  refine ⟨rfl, ?_, rfl⟩
  simp [payStatePreorder]

open TradeFair in
/-- C3 counterexample: a payload whose event is not `charge.success`
is answered with the 400 error response "Invalid event or status" —
not with a 2xx neutral "ignored" acknowledgment as the claim
states. -/
theorem webhook_mismatch_error_counterexample :
    paystackWebhookPost payStateVendor
        { event := some "other.event",
          data := some { reference := some "r", status := some "success" } } =
      .ok ({ code := 400, body := "Invalid event or status" }, payStateVendor) ∧
    ¬(200 ≤ 400 ∧ 400 < 300) := by
  exact ⟨rfl, by omega⟩

open TradeFair in
/-- C3 amended: for every payload whose event is not the
charge-success event, or which carries a data object whose status is
not a success status, the webhook handler performs no state change and
does not raise, but it answers with the 400 error response "Invalid
event or status" rather than a neutral ignored outcome.  (When the
event is `charge.success` and the payload carries no data object at
all, the handler raises instead.) -/
theorem webhook_mismatch_is_noop_400 :
    ∀ (st : PayState) (p : WebhookPayload),
      (p.event ≠ some "charge.success" ∨
        ∃ d, p.data = some d ∧ d.status ≠ some "success") →
      paystackWebhookPost st p =
        .ok ({ code := 400, body := "Invalid event or status" }, st) := by
  intro st p h
  rcases h with h | ⟨d, hd, hs⟩
  · simp [paystackWebhookPost, h]
  · by_cases he : p.event = some "charge.success"
    · simp [paystackWebhookPost, he, hd, hs]
    · simp [paystackWebhookPost, he]

open TradeFair in
/-- C3 witness: the amended statement applied to a concrete
wrong-event payload. -/
theorem webhook_mismatch_is_noop_400_witness :
    ((some "refund.processed" : Option String) ≠ some "charge.success") ∧
    paystackWebhookPost payStateVendor
        { event := some "refund.processed",
          data := some { reference := some "r", status := some "success" } } =
      .ok ({ code := 400, body := "Invalid event or status" }, payStateVendor) :=
  ⟨by decide,
    webhook_mismatch_is_noop_400 payStateVendor
      { event := some "refund.processed",
        data := some { reference := some "r", status := some "success" } }
      (Or.inl (by decide))⟩

open TradeFair in
/-- C4: confirmed.  For every reference `R` whose (unique) matching
`VendorPayment` is pending, the first delivery of the
charge-success/success payload for `R` answers 200, flips that
payment's status to success and secures its linked shed; delivering
the same payload a second time answers 200 again and leaves the state
exactly as after the first delivery — a no-op, not an error and not a
duplicate side effect. -/
theorem webhook_success_idempotent :
    ∀ (st : PayState) (R : String) (vp : VendorPayment),
      st.vendorPayments.find? (fun v => v.reference == R) = some vp →
      vp.status = "pending" →
      ∃ st1 : PayState,
        paystackWebhookPost st (successPayload R) =
          .ok ({ code := 200, body := "Payment verified" }, st1) ∧
        st1.vendorPayments.find? (fun v => v.reference == R) =
          some { vp with status := "success" } ∧
        (∀ s ∈ st1.sheds, s.id = vp.shedId → s.secured = true) ∧
        paystackWebhookPost st1 (successPayload R) =
          .ok ({ code := 200, body := "Payment verified" }, st1) := by
  intro st R vp hfind _hpending
  refine ⟨{ st with
      vendorPayments := markVendorPaymentSuccess st.vendorPayments vp.id,
      sheds := secureShed st.sheds vp.shedId }, ?_, ?_, ?_, ?_⟩
  · simp [paystackWebhookPost, successPayload, hfind]
  · rw [find?_ref_markVendorPaymentSuccess, hfind]
    simp
  · exact secured_of_mem_secureShed st.sheds vp.shedId
  · have hfind1 : (markVendorPaymentSuccess st.vendorPayments vp.id).find?
        (fun v => v.reference == R) =
        some { vp with status := "success" } := by
      rw [find?_ref_markVendorPaymentSuccess, hfind]
      simp
    simp [paystackWebhookPost, successPayload, hfind1,
      markVendorPaymentSuccess_idem, secureShed_idem]

open TradeFair in
/-- C4 witness: the idempotence statement applied to the concrete
state holding the single pending vendor payment with reference "r". -/
theorem webhook_success_idempotent_witness :
    payStateVendor.vendorPayments.find? (fun v => v.reference == "r") =
        some vendorPaymentOne ∧
    vendorPaymentOne.status = "pending" ∧
    ∃ st1 : PayState,
      paystackWebhookPost payStateVendor (successPayload "r") =
        .ok ({ code := 200, body := "Payment verified" }, st1) ∧
      st1.vendorPayments.find? (fun v => v.reference == "r") =
        some { vendorPaymentOne with status := "success" } ∧
      (∀ s ∈ st1.sheds, s.id = vendorPaymentOne.shedId → s.secured = true) ∧
      paystackWebhookPost st1 (successPayload "r") =
        .ok ({ code := 200, body := "Payment verified" }, st1) :=
  ⟨rfl, rfl, webhook_success_idempotent payStateVendor "r" vendorPaymentOne rfl rfl⟩

namespace TradeFair

/-! ## Theorems: general lemmas about the registration cache -/

/-- After deleting a reference from the cache, looking the same
reference up finds nothing. -/
theorem lookup_deleteKey (cache : List (String × VendorData)) (R : String) :
    (deleteKey cache R).lookup R = none := by
  induction cache with
  | nil => rfl
  | cons kv tl ih =>
    simp only [deleteKey, List.filter_cons] at *
    by_cases h : kv.1 = R
    · simp [h, ih]
    · have hb : (R == kv.1) = false :=
        beq_eq_false_iff_ne.mpr (fun e => h e.symm)
      simp [h, List.lookup, ih, hb]

end TradeFair

set_option maxRecDepth 100000 in
open TradeFair in
/-- C5 counterexample: with domain CB full (sheds CB1..CB100 exist)
and a staged CB registration, the verified-success callback fails with
a 500 error and yet the user table has grown — the durable store is
not unchanged on error, so the three records are not created
atomically. -/
theorem callback_atomicity_counterexample :
    (paystack_payment_callback regStateFullCB (some "SHED-PENDING-x") verifiedOk).1.code
        = 500 ∧
    (paystack_payment_callback regStateFullCB (some "SHED-PENDING-x") verifiedOk).2.users
        ≠ regStateFullCB.users := by
  constructor
  · decide
  · decide

open TradeFair in
/-- C5 amended: on a verified-success callback for a staged reference,
the User, VendorProfile and Shed are created sequentially without a
transaction.  When shed allocation fails with CapacityExceeded, the
already-created User row persists, no VendorProfile or Shed is
created, the cache entry is deleted, and a 500 error is returned — the
durable store is NOT unchanged on error. -/
theorem callback_alloc_failure_keeps_user :
    ∀ (st : RegState) (R : String) (d : VendorData) (v : Verification),
      v.status = true → v.dataStatus = "success" →
      st.cache.lookup R = some d →
      generate_unique_shed_number (st.sheds.map (·.shed_number))
          (st.vendorProfiles.map (·.shed_number)) d.domain =
        .error .capacityExceeded →
      paystack_payment_callback st (some R) v =
        ({ code := 500, body := "Payment verification error" },
         { st with
           users := st.users ++ [stagedUser d st.nextUserId],
           nextUserId := st.nextUserId + 1,
           cache := deleteKey st.cache R }) := by
  intro st R d v hv hds hlookup halloc
  simp [paystack_payment_callback, hv, hds, hlookup, halloc]

set_option maxRecDepth 100000 in
open TradeFair in
/-- C5 witness: the amended statement applied to the full-CB state. -/
theorem callback_alloc_failure_keeps_user_witness :
    regStateFullCB.cache.lookup "SHED-PENDING-x" = some vendorDataCB ∧
    generate_unique_shed_number (regStateFullCB.sheds.map (·.shed_number))
        (regStateFullCB.vendorProfiles.map (·.shed_number)) vendorDataCB.domain =
      .error .capacityExceeded ∧
    paystack_payment_callback regStateFullCB (some "SHED-PENDING-x") verifiedOk =
      ({ code := 500, body := "Payment verification error" },
       { regStateFullCB with
         users := regStateFullCB.users ++
           [stagedUser vendorDataCB regStateFullCB.nextUserId],
         nextUserId := regStateFullCB.nextUserId + 1,
         cache := deleteKey regStateFullCB.cache "SHED-PENDING-x" }) :=
  ⟨rfl, by decide,
    callback_alloc_failure_keeps_user regStateFullCB "SHED-PENDING-x" vendorDataCB
      verifiedOk rfl rfl rfl (by decide)⟩

open TradeFair in
/-- C6: confirmed.  For a staged reference whose shed allocation
succeeds, the first verified-success callback creates exactly one
user (plus one vendor profile and one shed) and consumes the cache
entry; delivering the callback a second time for the same reference
finds no cache entry, fails with the "expired or not found" 400
response, and leaves the state exactly as after the first call —
no second user or shed is created. -/
theorem callback_replay_not_found :
    ∀ (st : RegState) (R : String) (d : VendorData) (v : Verification) (sn : String),
      v.status = true → v.dataStatus = "success" →
      st.cache.lookup R = some d →
      generate_unique_shed_number (st.sheds.map (·.shed_number))
          (st.vendorProfiles.map (·.shed_number)) d.domain = .ok sn →
      ∃ st1 : RegState,
        paystack_payment_callback st (some R) v =
          ({ code := 200, body := "Successfully registered" }, st1) ∧
        st1.users = st.users ++ [stagedUser d st.nextUserId] ∧
        st1.vendorProfiles.length = st.vendorProfiles.length + 1 ∧
        st1.sheds.length = st.sheds.length + 1 ∧
        st1.cache.lookup R = none ∧
        paystack_payment_callback st1 (some R) v =
          ({ code := 400,
             body := "Registration data expired or not found. Please try again." },
           st1) := by
  intro st R d v sn hv hds hlookup halloc
  refine ⟨{ st with
      users := st.users ++ [stagedUser d st.nextUserId],
      vendorProfiles := st.vendorProfiles ++
        [{ id := st.nextProfileId, userId := st.nextUserId,
           business_name := d.business_name, description := d.description,
           domain := d.domain, shed_number := sn,
           payment_status := "COMPLETED", payment_reference := R }],
      sheds := st.sheds ++
        [{ id := st.nextShedId, vendorId := st.nextProfileId, shed_number := sn,
           name := d.business_name ++ " Stall", domain := d.domain,
           secured := true }],
      nextUserId := st.nextUserId + 1,
      nextProfileId := st.nextProfileId + 1,
      nextShedId := st.nextShedId + 1,
      cache := deleteKey st.cache R }, ?_, ?_, ?_, ?_, ?_, ?_⟩
  · simp [paystack_payment_callback, stagedUser, hv, hds, hlookup, halloc]
  · rfl
  · simp
  · simp
  · exact lookup_deleteKey st.cache R
  · simp [paystack_payment_callback, hv, hds, lookup_deleteKey]

open TradeFair in
/-- C6 witness: the statement applied to the small staged state, whose
first allocation in CB yields "CB1". -/
theorem callback_replay_not_found_witness :
    regStateSmall.cache.lookup "SHED-PENDING-x" = some vendorDataCB ∧
    generate_unique_shed_number (regStateSmall.sheds.map (·.shed_number))
        (regStateSmall.vendorProfiles.map (·.shed_number)) vendorDataCB.domain =
      .ok "CB1" ∧
    ∃ st1 : RegState,
      paystack_payment_callback regStateSmall (some "SHED-PENDING-x") verifiedOk =
        ({ code := 200, body := "Successfully registered" }, st1) ∧
      st1.users = regStateSmall.users ++
        [stagedUser vendorDataCB regStateSmall.nextUserId] ∧
      st1.vendorProfiles.length = regStateSmall.vendorProfiles.length + 1 ∧
      st1.sheds.length = regStateSmall.sheds.length + 1 ∧
      st1.cache.lookup "SHED-PENDING-x" = none ∧
      paystack_payment_callback st1 (some "SHED-PENDING-x") verifiedOk =
        ({ code := 400,
           body := "Registration data expired or not found. Please try again." },
         st1) :=
  ⟨rfl, rfl,
    callback_replay_not_found regStateSmall "SHED-PENDING-x" vendorDataCB verifiedOk
      "CB1" rfl rfl rfl rfl⟩

namespace TradeFair

/-! ## Theorems: general lemmas about the preorder endpoints -/

/-- The role-filtered queryset only contains stored preorders. -/
theorem mem_preorder_get_queryset :
    ∀ (st : OrderState) (u : Requester) (p : Preorder),
      p ∈ preorder_get_queryset st u → p ∈ st.preorders := by
  intro st u p hp
  unfold preorder_get_queryset at hp
  cases hv : u.vendorProfileId with
  | some vp =>
    rw [hv] at hp
    exact (List.mem_filter.mp hp).1
  | none =>
    rw [hv] at hp
    cases hc : u.customerProfileId with
    | some c =>
      rw [hc] at hp
      exact (List.mem_filter.mp hp).1
    | none =>
      rw [hc] at hp
      simp at hp

end TradeFair

open TradeFair in
/-- C7 counterexample: vendor user 2 (a different vendor) asking to
confirm preorder 1 — which belongs to vendor 1's product — receives
404 NotFound, not the 403 PermissionDenied stated by the claim,
because the preorder is outside vendor 2's role-filtered queryset. -/
theorem preorder_confirm_other_vendor_counterexample :
    confirmAction orderStateA vendorUserB 1 =
      ({ code := 404, body := "Not found" }, orderStateA) ∧
    (404 : Nat) ≠ 403 := by
  exact ⟨rfl, by decide⟩

open TradeFair in
/-- C7 amended: confirming a pending preorder as the vendor who owns
its product (and who is recorded as the preorder's `vendor`) answers
200 and sets the status to confirmed.  A different vendor — one whose
profile does not own the product of any stored preorder with the
requested id — receives 404 NotFound (the role-filtered queryset hides
the preorder), not PermissionDenied.  Confirming an id that no stored
preorder has also answers 404 NotFound. -/
theorem preorder_confirm_routing :
    (∀ (st : OrderState) (u : Requester) (pk : Nat) (pre : Preorder),
      preorder_get_object st u pk = some pre →
      isPreorderOwnerOrVendor st u pre = true →
      pre.vendorUserId = u.userId →
      pre.status = "pending" →
      confirmAction st u pk =
        ({ code := 200, body := "confirmed" },
         { st with preorders := setPreorderStatus st.preorders pre.id "confirmed" })) ∧
    (∀ (st : OrderState) (u : Requester) (pk vp : Nat),
      u.vendorProfileId = some vp →
      (∀ pre ∈ st.preorders, pre.id = pk →
        ¬ preorderShedVendorId st pre = some vp) →
      confirmAction st u pk = ({ code := 404, body := "Not found" }, st)) ∧
    (∀ (st : OrderState) (u : Requester) (pk : Nat),
      (∀ pre ∈ st.preorders, pre.id ≠ pk) →
      confirmAction st u pk = ({ code := 404, body := "Not found" }, st)) := by
  refine ⟨?_, ?_, ?_⟩
  · intro st u pk pre hobj hperm hvend _hstatus
    simp [confirmAction, hobj, hperm, hvend]
  · intro st u pk vp hvp hnotowner
    have hnone : preorder_get_object st u pk = none := by
      simp only [preorder_get_object, preorder_get_queryset, hvp,
        List.find?_filter, List.find?_eq_none]
      intro x hx
      simp only [Bool.and_eq_true, beq_iff_eq, decide_eq_true_eq, not_and]
      intro hown hid
      exact absurd hown (by simpa using hnotowner x hx (by simpa using hid))
    simp [confirmAction, hnone]
  · intro st u pk hnoid
    have hnone : preorder_get_object st u pk = none := by
      rw [preorder_get_object, List.find?_eq_none]
      intro x hx
      have hmem := mem_preorder_get_queryset st u x hx
      simp [hnoid x hmem]
    simp [confirmAction, hnone]

open TradeFair in
/-- C7 witness: vendor user 1 confirming their own pending preorder 1
succeeds with 200/confirmed. -/
theorem preorder_confirm_routing_witness :
    preorder_get_object orderStateA vendorUserA 1 = some preorderA ∧
    isPreorderOwnerOrVendor orderStateA vendorUserA preorderA = true ∧
    preorderA.vendorUserId = vendorUserA.userId ∧
    preorderA.status = "pending" ∧
    confirmAction orderStateA vendorUserA 1 =
      ({ code := 200, body := "confirmed" },
       { orderStateA with
         preorders := setPreorderStatus orderStateA.preorders preorderA.id
           "confirmed" }) :=
  ⟨rfl, rfl, rfl, rfl,
    preorder_confirm_routing.1 orderStateA vendorUserA 1 preorderA rfl rfl rfl rfl⟩

open TradeFair in
/-- C10: confirmed.  For a preorder visible to an authorized vendor
(recorded as its `vendor`), confirm overwrites the status with
'confirmed' and cancel overwrites it with 'cancelled' regardless of
the current value — neither action inspects the current status, so no
lifecycle ordering between pending, confirmed and cancelled is
enforced. -/
theorem preorder_status_overwrite :
    (∀ (st : OrderState) (u : Requester) (pk : Nat) (pre : Preorder),
      preorder_get_object st u pk = some pre →
      isPreorderOwnerOrVendor st u pre = true →
      pre.vendorUserId = u.userId →
      confirmAction st u pk =
        ({ code := 200, body := "confirmed" },
         { st with preorders := setPreorderStatus st.preorders pre.id "confirmed" })) ∧
    (∀ (st : OrderState) (u : Requester) (pk : Nat) (pre : Preorder),
      preorder_get_object st u pk = some pre →
      isPreorderOwnerOrVendor st u pre = true →
      pre.vendorUserId = u.userId →
      cancelAction st u pk =
        .ok ({ code := 200, body := "cancelled" },
          { st with preorders := setPreorderStatus st.preorders pre.id "cancelled" })) := by
  constructor
  · intro st u pk pre hobj hperm hvend
    simp [confirmAction, hobj, hperm, hvend]
  · intro st u pk pre hobj hperm hvend
    simp [cancelAction, hobj, hperm, hvend]

open TradeFair in
/-- C10 witness: confirm turns the already-cancelled preorder 2 into
'confirmed', and cancel turns the already-confirmed preorder 3 into
'cancelled'. -/
theorem preorder_status_overwrite_witness :
    (preorder_get_object orderStateB vendorUserA 2 = some preorderCancelled ∧
     preorderCancelled.status = "cancelled" ∧
     confirmAction orderStateB vendorUserA 2 =
       ({ code := 200, body := "confirmed" },
        { orderStateB with
          preorders := setPreorderStatus orderStateB.preorders
            preorderCancelled.id "confirmed" })) ∧
    (preorder_get_object orderStateB vendorUserA 3 = some preorderConfirmed ∧
     preorderConfirmed.status = "confirmed" ∧
     cancelAction orderStateB vendorUserA 3 =
       .ok ({ code := 200, body := "cancelled" },
         { orderStateB with
           preorders := setPreorderStatus orderStateB.preorders
             preorderConfirmed.id "cancelled" })) :=
  ⟨⟨rfl, rfl,
      preorder_status_overwrite.1 orderStateB vendorUserA 2 preorderCancelled
        rfl rfl rfl⟩,
   ⟨rfl, rfl,
      preorder_status_overwrite.2 orderStateB vendorUserA 3 preorderConfirmed
        rfl rfl rfl⟩⟩

open TradeFair in
/-- C8: confirmed.  A preorder whose quantity exceeds the product's
stock is rejected by the serializer with the validation error, and one
with a positive quantity within stock is created with status
'pending'. -/
theorem preorder_stock_validation :
    ∀ (product : Product) (cid vuid nid q : Nat),
      (q > product.quantity →
        preorderSerializerValidate product q =
          .error "Requested quantity exceeds available stock.") ∧
      (0 < q → q ≤ product.quantity →
        createPreorder product cid vuid nid q =
          .ok { id := nid, customerProfileId := cid, vendorUserId := vuid,
                productId := product.id, quantity := q, status := "pending" }) := by
  intro product cid vuid nid q
  constructor
  · intro h
    have h0 : ¬ q ≤ 0 := by omega
    simp [preorderSerializerValidate, h0, h]
  · intro h1 h2
    have h0 : ¬ q ≤ 0 := by omega
    have h3 : ¬ q > product.quantity := by omega
    simp [createPreorder, preorderSerializerValidate, h0, h3]

open TradeFair in
/-- C8 witness: quantity 100 against stock 50 is rejected; quantity 2
against stock 50 creates a pending preorder. -/
theorem preorder_stock_validation_witness :
    (100 > productA.quantity ∧
     preorderSerializerValidate productA 100 =
       .error "Requested quantity exceeds available stock.") ∧
    (0 < 2 ∧ 2 ≤ productA.quantity ∧
     createPreorder productA 1 1 9 2 =
       .ok { id := 9, customerProfileId := 1, vendorUserId := 1,
             productId := productA.id, quantity := 2, status := "pending" }) :=
  ⟨⟨by decide, (preorder_stock_validation productA 1 1 9 100).1 (by decide)⟩,
   ⟨by decide, by decide,
     (preorder_stock_validation productA 1 1 9 2).2 (by decide) (by decide)⟩⟩

namespace TradeFair

/-! ## Theorems: general lemmas about the follow endpoints -/

/-- After the unfollow filter removed every follow of the pair, no
follow of that pair remains. -/
theorem any_pair_filter_removed (l : List Follow) (cid vid : Nat) :
    (l.filter
        (fun f => !(f.customerProfileId == cid && f.vendorProfileId == vid))).any
      (fun f => f.customerProfileId == cid && f.vendorProfileId == vid) = false := by
  rw [List.any_filter]
  simp
  intro x _ h hc
  rcases h with h | h
  · exact absurd hc h
  · exact h

/-- The serializer's vendor validation reads only the vendor-profile
and user tables, never the follow table. -/
theorem followValidateVendor_follows_invariant (st : FollowState)
    (fl : List Follow) (vid : Nat) :
    followValidateVendor { st with follows := fl } vid =
      followValidateVendor st vid := rfl

end TradeFair

open TradeFair in
/-- C9: confirmed.  For a customer and a valid vendor with no existing
follow of the pair, the first create succeeds; creating the same pair
again fails with the storage layer's duplicate-key rejection (the
spec's Conflict); after unfollowing (deleting) the pair, a subsequent
create for the same pair succeeds again. -/
theorem follow_unique_pair_conflict :
    ∀ (st : FollowState) (u : Requester) (cid vid id1 id2 : Nat)
      (vp : VendorProfile),
      u.customerProfileId = some cid →
      followValidateVendor st vid = .ok vp →
      st.follows.any
        (fun f => f.customerProfileId == cid && f.vendorProfileId == vid) = false →
      ∃ st1 : FollowState,
        followCreate st u vid id1 = .ok (mkFollow cid vid id1, st1) ∧
        followCreate st1 u vid id2 = .error .conflict ∧
        ∃ st2 : FollowState,
          unfollowAction st1 u (some vid) =
            .ok ({ code := 200, body := "Vendor unfollowed successfully." }, st2) ∧
          followCreate st2 u vid id2 =
            .ok (mkFollow cid vid id2,
              { st2 with follows := st2.follows ++ [mkFollow cid vid id2] }) := by
  intro st u cid vid id1 id2 vp hcust hvv hnodup
  refine ⟨{ st with follows := st.follows ++ [mkFollow cid vid id1] }, ?_, ?_, ?_⟩
  · simp [followCreate, hcust, hvv, hnodup, mkFollow]
  · simp only [followCreate, hcust, followValidateVendor_follows_invariant, hvv]
    have hdup : ((st.follows ++ [mkFollow cid vid id1]).any (fun f => f.customerProfileId == cid && f.vendorProfileId == vid)) = true := by
      simp [mkFollow]
    rw [if_pos hdup]
  · refine ⟨{ st with follows := (st.follows ++ [mkFollow cid vid id1]).filter (fun f => !(f.customerProfileId == cid && f.vendorProfileId == vid)) }, ?_, ?_⟩
    · have hdel : ((st.follows ++ [mkFollow cid vid id1]).filter (fun f => !(f.customerProfileId == cid && f.vendorProfileId == vid))).length ≤ st.follows.length := by
        rw [List.filter_append]
        simp only [List.length_append]
        have h1 := List.length_filter_le
          (fun f : Follow =>
            !(f.customerProfileId == cid && f.vendorProfileId == vid)) st.follows
        have h2 : (([mkFollow cid vid id1] : List Follow).filter (fun f => !(f.customerProfileId == cid && f.vendorProfileId == vid))).length = 0 := by
          simp [mkFollow]
        omega
      have hne : ((st.follows ++ [mkFollow cid vid id1]).length - ((st.follows ++ [mkFollow cid vid id1]).filter (fun f => !(f.customerProfileId == cid && f.vendorProfileId == vid))).length) ≠ 0 := by
        simp only [List.length_append, List.length_cons, List.length_nil]
        omega
      simp only [unfollowAction, hcust]
      rw [if_pos hne]
    · simp only [followCreate, hcust, followValidateVendor_follows_invariant, hvv]
      rw [any_pair_filter_removed]
      simp [mkFollow]

open TradeFair in
/-- C9 witness: customer profile 1 follows vendor profile 1 in the
empty follow store; the duplicate create conflicts and, after
unfollowing, following again succeeds. -/
theorem follow_unique_pair_conflict_witness :
    customerUserA.customerProfileId = some 1 ∧
    followValidateVendor followStateA 1 = .ok vendorProfileA ∧
    followStateA.follows.any
      (fun f => f.customerProfileId == 1 && f.vendorProfileId == 1) = false ∧
    ∃ st1 : FollowState,
      followCreate followStateA customerUserA 1 7 = .ok (mkFollow 1 1 7, st1) ∧
      followCreate st1 customerUserA 1 8 = .error .conflict ∧
      ∃ st2 : FollowState,
        unfollowAction st1 customerUserA (some 1) =
          .ok ({ code := 200, body := "Vendor unfollowed successfully." }, st2) ∧
        followCreate st2 customerUserA 1 8 =
          .ok (mkFollow 1 1 8,
            { st2 with follows := st2.follows ++ [mkFollow 1 1 8] }) :=
  ⟨rfl, rfl, rfl,
    follow_unique_pair_conflict followStateA customerUserA 1 1 7 8 vendorProfileA
      rfl rfl rfl⟩
